import Mathlib

/-!
Shallow embedding of the repository Detector_Pessoas.

The repository holds three independent Python files:
  * `src/ia_m_uv/main.py` — `detectar_pessoas`, a frame loop over a video
    source running a pedestrian detector per frame and keeping a running count;
  * `src/ia_m_uv/algoritmos/gemini_integration.py` — `GeminiClient`, a wrapper
    class around a generative-language service;
  * `src/ia_m_uv/utils.py` — `parse_args`, a declaration of one required
    command-line flag.

External effects (the video capture, the detector, the network service, the
console) are modelled as explicit inputs (oracles) and explicit event traces.
Python exceptions are modelled with `Except`.
-/

/- ================= detectar_pessoas (main.py) ================= -/

/-- A bounding rectangle (x, y, w, h) as returned by hog.detectMultiScale. -/
structure Rect where
  x : Int
  y : Int
  w : Int
  h : Int
  deriving DecidableEq, Repr

/-- One iteration worth of external input to the frame loop of
`detectar_pessoas`: whether `cap.read()` succeeded (`ret`), the rectangle list
`hog.detectMultiScale` returns on that frame, and whether `cv2.waitKey`
reported the q key. -/
structure FrameInput where
  read_ok : Bool
  rects : List Rect
  quit : Bool
  deriving DecidableEq, Repr

/-- The console line printed after the loop of `detectar_pessoas` ends. -/
def totalMessage (t : Nat) : String :=
  "Total de pessoas detectadas no vídeo (soma por frame): " ++ toString t

/-- The `while True` loop of `detectar_pessoas` (main.py lines 15-39), starting
from counter value `total`: reads a frame; on read failure prints the capture
error and breaks; otherwise adds the frame rectangle count to the counter,
draws, displays, and breaks when the q key was pressed. Returns the final
counter, the rectangle lists of the frames whose detection ran, and the
console lines printed inside the loop. -/
def frameLoop : List FrameInput → Nat → Nat × List (List Rect) × List String
  | [], total => (total, [], [])
  | f :: rest, total =>
    if f.read_ok = false then
      (total, [], ["Erro ao capturar frame"])
    else
      let total2 := total + f.rects.length
      if f.quit then
        (total2, [f.rects], [])
      else
        let r := frameLoop rest total2
        (r.1, f.rects :: r.2.1, r.2.2)

/-- Observable outcome of a run of `detectar_pessoas`: the console lines, the
rectangle lists of the frames whose detection ran, and the final counter value
when the closing total line was printed (`none` on the early return taken when
the capture fails to open, before the counter even exists). -/
structure DetectOutcome where
  prints : List String
  processed : List (List Rect)
  totalPrinted : Option Nat
  deriving DecidableEq, Repr

/-- `detectar_pessoas` (main.py lines 3-44). `opened` is `cap.isOpened()`;
`frames` supplies the loop's external inputs. On open failure it prints the
open error and returns at once; otherwise it initialises the counter to 0,
runs the loop, and prints the total line. -/
def detectar_pessoas (opened : Bool) (frames : List FrameInput) : DetectOutcome :=
  if opened = false then
    { prints := ["Erro ao abrir a câmera/vídeo"], processed := [], totalPrinted := none }
  else
    let r := frameLoop frames 0
    { prints := r.2.2 ++ [totalMessage r.1],
      processed := r.2.1,
      totalPrinted := some r.1 }

/- ================= GeminiClient (gemini_integration.py) ================= -/

/-- Sampling parameters forwarded to the service (genai GenerationConfig).
Float-valued parameters are embedded as rationals; this code never computes
with them, it only stores and forwards them. -/
structure GenerationConfig where
  temperature : Rat
  max_output_tokens : Int
  top_p : Rat
  top_k : Int
  deriving DecidableEq, Repr

/-- One safety-settings dict, kept abstract as a key-value list. -/
abbrev SafetySetting := List (String × String)

/-- A tool (function declaration) passed through to the service, abstract. -/
structure Tool where
  name : String
  deriving DecidableEq, Repr

/-- A genai.GenerativeModel handle: the arguments the wrapper constructs it
with. -/
structure ModelHandle where
  model_name : String
  generation_config : GenerationConfig
  safety_settings : List SafetySetting
  system_instruction : Option String
  deriving DecidableEq, Repr

/-- One chat turn: a role ("user" or "model") and its content fragments. -/
structure ChatTurn where
  role : String
  parts : List String
  deriving DecidableEq, Repr

/-- The SDK chat-session object returned by model.start_chat. -/
structure ChatSession where
  model : ModelHandle
  history : List ChatTurn
  deriving DecidableEq, Repr

/-- The GeminiClient instance state: the fields __init__ assigns to self. -/
structure GeminiClient where
  model_name : String
  default_generation_config : GenerationConfig
  system_instruction : Option String
  safety_settings : List SafetySetting
  model : ModelHandle
  chat_session : Option ChatSession
  deriving DecidableEq, Repr

/-- Python exceptions this module raises. -/
inductive PyError where
  | valueError (msg : String)
  | runtimeError (msg : String)
  deriving DecidableEq, Repr

/-- Observable external actions of the wrapper: configuring the SDK with a
key, constructing a model handle, issuing a generate_content request, issuing
a chat send_message request, and printing a console line. -/
inductive Event where
  | configure (api_key : String)
  | createModel (handle : ModelHandle)
  | callGenerateContent (handle : ModelHandle)
  | callSendMessage (session : ChatSession)
  | consolePrint (line : String)
  deriving DecidableEq, Repr

/-- Whether an event issues a request to the service. -/
def Event.isRequest : Event → Bool
  | callGenerateContent _ => true
  | callSendMessage _ => true
  | _ => false

/-- A content part of a service response: `text` is `some` exactly when the
part object has a text attribute; `payload` stands for the rest of the raw
object. -/
structure RespPart where
  text : Option String
  payload : String
  deriving DecidableEq, Repr

/-- The content of one response candidate. -/
structure Content where
  parts : List RespPart
  deriving DecidableEq, Repr

/-- One response candidate. -/
structure Candidate where
  content : Content
  deriving DecidableEq, Repr

/-- One chunk yielded when iterating a streaming response. -/
structure Chunk where
  text : String
  deriving DecidableEq, Repr

/-- A service response object: `text` is `some` exactly when the object has a
text attribute; `candidates` its candidate list; `chunks` what iterating it
yields when it was produced by a streaming call. -/
structure Response where
  text : Option String
  candidates : List Candidate
  chunks : List Chunk
  deriving DecidableEq, Repr

/-- A prompt: a plain string or a mixed list of text/binary/structured parts. -/
inductive PromptPart where
  | text (s : String)
  | binary (b : List Nat)
  | dict (d : List (String × String))
  deriving DecidableEq, Repr

/-- The contents argument of a request. -/
inductive Prompt where
  | str (s : String)
  | parts (ps : List PromptPart)
  deriving DecidableEq, Repr

/-- A value a wrapper method returns: a plain string, a raw part object, or
the chunk-text sequence of a streaming response. -/
inductive GenValue where
  | str (s : String)
  | part (p : RespPart)
  | chunkTexts (ts : List String)
  deriving DecidableEq, Repr

/-- The external generate_content call: the model handle it is invoked on, the
contents, the per-call generation_config argument (none when the caller does
not pass one), the tools, and the stream flag. It returns a response or
raises, with the exception text as the error. -/
abbrev GenerateContentCall :=
  ModelHandle → Prompt → Option GenerationConfig → List Tool → Bool →
    Except String Response

/-- The external chat_session.send_message call. -/
abbrev SendMessageCall :=
  ChatSession → Prompt → Bool → Except String Response

/-- The ValueError message of __init__ for a missing credential. -/
def missingKeyMessage : String :=
  "A chave da API do Gemini não foi fornecida e não foi encontrada " ++
  "na variável de ambiente 'GOOGLE_API_KEY'. " ++
  "Por favor, forneça a chave ou defina a variável de ambiente."

/-- The RuntimeError message of send_chat_message without a session. -/
def noSessionMessage : String :=
  "Nenhuma sessão de chat iniciada. Chame 'start_chat()' primeiro."

/-- The tail of __init__ after the credential check (gemini_integration.py
lines 62-78): configure the SDK, store the defaults on self, construct the
model handle, and leave chat_session unset. -/
def initConfigured (key : String) (model_name : String) (temperature : Rat)
    (max_output_tokens : Int) (top_p : Rat) (top_k : Int)
    (system_instruction : Option String)
    (safety_settings : Option (List SafetySetting)) :
    List Event × Except PyError GeminiClient :=
  let cfg : GenerationConfig :=
    { temperature := temperature, max_output_tokens := max_output_tokens,
      top_p := top_p, top_k := top_k }
  let ss := safety_settings.getD []
  let handle : ModelHandle :=
    { model_name := model_name, generation_config := cfg,
      safety_settings := ss, system_instruction := system_instruction }
  ([Event.configure key, Event.createModel handle],
   Except.ok
     { model_name := model_name, default_generation_config := cfg,
       system_instruction := system_instruction, safety_settings := ss,
       model := handle, chat_session := none })

/-- GeminiClient.__init__ (gemini_integration.py lines 27-78). `api_key` is
the explicit argument (none when omitted); `env_GOOGLE_API_KEY` the value of
the environment variable (none when unset). When the argument is None the
variable is consulted, and a missing or falsy (empty) result raises
ValueError; an explicitly passed key skips the check entirely. Returns the
event trace and the constructed instance or the exception. -/
def GeminiClient.init (api_key : Option String) (env_GOOGLE_API_KEY : Option String)
    (model_name : String) (temperature : Rat) (max_output_tokens : Int)
    (top_p : Rat) (top_k : Int) (system_instruction : Option String)
    (safety_settings : Option (List SafetySetting)) :
    List Event × Except PyError GeminiClient :=
  match api_key with
  | none =>
    match env_GOOGLE_API_KEY with
    | none => ([], Except.error (PyError.valueError missingKeyMessage))
    | some k =>
      if k = "" then
        ([], Except.error (PyError.valueError missingKeyMessage))
      else
        initConfigured k model_name temperature max_output_tokens top_p top_k
          system_instruction safety_settings
  | some k =>
    initConfigured k model_name temperature max_output_tokens top_p top_k
      system_instruction safety_settings

/-- The response-normalisation block shared verbatim by generate_response
(lines 113-128), generate_response_instructed (lines 179-188) and
send_chat_message (lines 231-240): when streaming, the generator of the
chunk texts; otherwise the text attribute if present, else the first part of
the first candidate (its text if it has one, the raw part otherwise), else
the empty string. -/
def extractValue (response : Response) (stream : Bool) : GenValue :=
  if stream then
    GenValue.chunkTexts (response.chunks.map Chunk.text)
  else
    match response.text with
    | some t => GenValue.str t
    | none =>
      match response.candidates with
      | [] => GenValue.str ""
      | c :: _ =>
        match c.content.parts with
        | [] => GenValue.str ""
        | p :: _ =>
          match p.text with
          | some t => GenValue.str t
          | none => GenValue.part p

/-- GeminiClient.generate_response (lines 80-131): picks the effective
config, calls generate_content on self.model inside try, normalises the
response, and on any exception prints the prefixed line and returns the
"Erro: " string. Returns the (unchanged) instance, the event trace and the
returned value or exception. -/
def GeminiClient.generate_response (c : GeminiClient) (prompt : Prompt)
    (generation_config : Option GenerationConfig) (tools : List Tool)
    (stream : Bool) (svc : GenerateContentCall) :
    GeminiClient × List Event × Except PyError GenValue :=
  let effective_config := generation_config.getD c.default_generation_config
  match svc c.model prompt (some effective_config) tools stream with
  | Except.error e =>
    (c, [Event.callGenerateContent c.model,
         Event.consolePrint ("Erro ao gerar resposta: " ++ e)],
     Except.ok (GenValue.str ("Erro: " ++ e)))
  | Except.ok response =>
    (c, [Event.callGenerateContent c.model],
     Except.ok (extractValue response stream))

/-- The fresh model handle generate_response_instructed constructs (lines
166-171): the instance's model name and safety settings, the effective
config, and the one-off instruction in place of the stored persona. -/
def instructedHandle (c : GeminiClient) (instruction : String)
    (generation_config : Option GenerationConfig) : ModelHandle :=
  { model_name := c.model_name,
    generation_config := generation_config.getD c.default_generation_config,
    safety_settings := c.safety_settings,
    system_instruction := some instruction }

/-- GeminiClient.generate_response_instructed (lines 133-191): clones the
default config (or uses the supplied one), builds a fresh temporary model
handle carrying the one-off instruction, calls generate_content on it without
a per-call config, and handles the response exactly as generate_response
does. The instance itself is not assigned to. -/
def GeminiClient.generate_response_instructed (c : GeminiClient) (prompt : Prompt)
    (instruction : String) (generation_config : Option GenerationConfig)
    (tools : List Tool) (stream : Bool) (svc : GenerateContentCall) :
    GeminiClient × List Event × Except PyError GenValue :=
  let instructed_model := instructedHandle c instruction generation_config
  match svc instructed_model prompt none tools stream with
  | Except.error e =>
    (c, [Event.createModel instructed_model,
         Event.callGenerateContent instructed_model,
         Event.consolePrint ("Erro ao gerar resposta instruída: " ++ e)],
     Except.ok (GenValue.str ("Erro: " ++ e)))
  | Except.ok response =>
    (c, [Event.createModel instructed_model,
         Event.callGenerateContent instructed_model],
     Except.ok (extractValue response stream))

/-- GeminiClient.start_chat (lines 193-206): assigns
self.chat_session = self.model.start_chat(history=history) and prints the
session line. -/
def GeminiClient.start_chat (c : GeminiClient) (history : Option (List ChatTurn)) :
    GeminiClient × List Event :=
  let session : ChatSession := { model := c.model, history := history.getD [] }
  ({ c with chat_session := some session },
   [Event.consolePrint ("Sessão de chat iniciada com o modelo: " ++ c.model_name)])

/-- GeminiClient.send_chat_message (lines 208-243): raises RuntimeError when
no session is active (before the try block), otherwise sends the message
inside try, normalising the response as the other methods do and converting
any exception into the printed line and the "Erro: " string. -/
def GeminiClient.send_chat_message (c : GeminiClient) (message : Prompt)
    (stream : Bool) (svc : SendMessageCall) :
    GeminiClient × List Event × Except PyError GenValue :=
  match c.chat_session with
  | none => (c, [], Except.error (PyError.runtimeError noSessionMessage))
  | some session =>
    match svc session message stream with
    | Except.error e =>
      (c, [Event.callSendMessage session,
           Event.consolePrint ("Erro ao enviar mensagem no chat: " ++ e)],
       Except.ok (GenValue.str ("Erro: " ++ e)))
    | Except.ok response =>
      (c, [Event.callSendMessage session],
       Except.ok (extractValue response stream))

/-- The response-normalisation cascade as the specification words it, for
comparison with `extractValue`: if the response has a text field that text is
returned; otherwise, if the response has at least one candidate whose content
has at least one part, the first part's text is returned if the part has a
text field and the raw part object otherwise; otherwise the empty string. -/
def specCascade (response : Response) : GenValue :=
  match response.text with
  | some t => GenValue.str t
  | none =>
    match response.candidates.head? with
    | none => GenValue.str ""
    | some c =>
      match c.content.parts.head? with
      | none => GenValue.str ""
      | some p =>
        match p.text with
        | some t => GenValue.str t
        | none => GenValue.part p

/-- The operations of the class after construction, with their external
inputs, for stating state-evolution properties. -/
inductive Op where
  | genResp (prompt : Prompt) (generation_config : Option GenerationConfig)
      (tools : List Tool) (stream : Bool) (svc : GenerateContentCall)
  | genInstructed (prompt : Prompt) (instruction : String)
      (generation_config : Option GenerationConfig) (tools : List Tool)
      (stream : Bool) (svc : GenerateContentCall)
  | startChat (history : Option (List ChatTurn))
  | sendMsg (message : Prompt) (stream : Bool) (svc : SendMessageCall)

/-- The instance state after running one operation. -/
def applyOp (c : GeminiClient) : Op → GeminiClient
  | Op.genResp p gc t s svc => (c.generate_response p gc t s svc).1
  | Op.genInstructed p i gc t s svc =>
    (c.generate_response_instructed p i gc t s svc).1
  | Op.startChat h => (c.start_chat h).1
  | Op.sendMsg m s svc => (c.send_chat_message m s svc).1

/- ================= parse_args (utils.py) ================= -/

/- utils.py declares one required option -p (long form --problema) on an
argparse parser and returns parser.parse_args(). argparse itself is the
Python standard library (3.11), not repository code: its handling of this
parser, which also carries the automatically added help option -h (long
form --help), is embedded below. The embedding mirrors argparse's two
passes: a classification pre-pass over the tokens (exact and =value forms,
unique long-prefix abbreviation, attached short values, the negative-number
and space tests, the -- separator, and the ambiguity error, which that pass
raises before anything runs), then in-order consumption (help exits the
process successfully, an explicit argument handed to help fails, the flag
takes the next token only when that token was classified as a positional),
then the required-argument check and the unrecognized-extras error. -/

/-- The characters of the short option string -p. -/
def shortChars : List Char := ['-', 'p']

/-- The characters of the -- pseudo-argument separating options from
positionals. -/
def sepChars : List Char := ['-', '-']

/-- The characters of the long option string --problema. -/
def longFlagChars : List Char := ['-', '-', 'p', 'r', 'o', 'b', 'l', 'e', 'm', 'a']

/-- The characters of the auto-added short help option string -h. -/
def helpShortChars : List Char := ['-', 'h']

/-- The characters of the auto-added long help option string --help. -/
def helpLongChars : List Char := ['-', '-', 'h', 'e', 'l', 'p']

/-- argparse's negative-number pattern after the leading minus: digits, or
digits then a dot then at least one digit. -/
def negNumberTail (l : List Char) : Bool :=
  (!l.isEmpty && l.all Char.isDigit) ||
  (match l.dropWhile Char.isDigit with
   | '.' :: frac => !frac.isEmpty && frac.all Char.isDigit
   | _ => false)

/-- Whether a token is a negative number to argparse (this parser declares
no negative-number-like option strings, so such tokens are positionals). -/
def isNegNumber (l : List Char) : Bool :=
  match l with
  | '-' :: rest => negNumberTail rest
  | _ => false

/-- Splits a token at its first '=' (the option=value form). -/
def splitAtEq : List Char → List Char × Option (List Char)
  | [] => ([], none)
  | '=' :: rest => ([], some rest)
  | c :: rest =>
    let r := splitAtEq rest
    (c :: r.1, r.2)

/-- What the classification pre-pass makes of one token: a positional, the
first -- separator, a match of the declared flag or of the help option
(each possibly carrying an =value or attached explicit argument; for help
the short or long form matters later), a token that looks like an option
but matches none, or the ambiguous prefix --= that abbreviates both long
options. -/
inductive TokClass where
  | positional
  | separator
  | problema (explicit : Option String)
  | help (explicit : Option String) (shortForm : Bool)
  | unknownOpt
  | ambiguous
  deriving DecidableEq, Repr

/-- argparse _get_option_tuples plus the negative-number and space tests,
reached when no exact or exact-=value match fired: a --token abbreviates the
long options it prefixes (both at once is ambiguous); a -token matches a
short option by its first two characters, with the rest attached as the
explicit argument; otherwise negative numbers and tokens holding a space
are positionals and the rest are unmatched option-like tokens. -/
def optionTuples (l : List Char) (s : List Char × Option (List Char)) : TokClass :=
  match l with
  | '-' :: '-' :: _ =>
    if s.1.isPrefixOf helpLongChars then
      if s.1.isPrefixOf longFlagChars then TokClass.ambiguous
      else TokClass.help (s.2.map fun cs => String.mk cs) false
    else if s.1.isPrefixOf longFlagChars then
      TokClass.problema (s.2.map fun cs => String.mk cs)
    else if isNegNumber l then TokClass.positional
    else if l.contains ' ' then TokClass.positional
    else TokClass.unknownOpt
  | '-' :: c2 :: rest2 =>
    if c2 = 'p' then TokClass.problema (some (String.mk rest2))
    else if c2 = 'h' then TokClass.help (some (String.mk rest2)) true
    else if isNegNumber l then TokClass.positional
    else if l.contains ' ' then TokClass.positional
    else TokClass.unknownOpt
  | _ => TokClass.unknownOpt

/-- argparse _parse_optional for this parser: empty tokens, tokens without
the prefix character and "-" alone are positionals; an exact option string
matches directly; a token with an = whose name part is an exact option
string carries that =value; everything else goes through optionTuples. -/
def classify (tok : String) : TokClass :=
  let l := tok.data
  if l = helpShortChars then TokClass.help none true
  else if l = helpLongChars then TokClass.help none false
  else if l = shortChars ∨ l = longFlagChars then TokClass.problema none
  else
    match l with
    | [] => TokClass.positional
    | c :: rest =>
      if c ≠ '-' then TokClass.positional
      else if rest = [] then TokClass.positional
      else
        let s := splitAtEq l
        match s.2 with
        | some ex =>
          if s.1 = helpShortChars then TokClass.help (some (String.mk ex)) true
          else if s.1 = helpLongChars then TokClass.help (some (String.mk ex)) false
          else if s.1 = shortChars ∨ s.1 = longFlagChars then
            TokClass.problema (some (String.mk ex))
          else optionTuples l s
        | none => optionTuples l s

/-- The pre-pass over the whole token list: tokens before the first -- are
classified; the first -- is the separator and everything after it is a
positional, whatever it looks like. -/
def classifyAll (argv : List String) : List (String × TokClass) :=
  let pre := argv.takeWhile (fun t => !(t.data == sepChars))
  let post := argv.dropWhile (fun t => !(t.data == sepChars))
  pre.map (fun t => (t, classify t)) ++
    (match post with
     | [] => []
     | sepTok :: rest =>
       (sepTok, TokClass.separator) :: rest.map (fun t => (t, TokClass.positional)))

/-- The value the flag ends up holding: the string, or the empty list
argparse builds when the explicit value was exactly -- (it strips -- from
the collected strings before conversion). -/
inductive FlagValue where
  | str (s : String)
  | emptyList
  deriving DecidableEq, Repr

/-- What a parse_args call does to its process: return the flag's value (a
string, or the empty list of the -- quirk), print an error and exit with
failure status, or print the help text and exit with success status (so
the caller never sees a value). -/
inductive ParseResult where
  | ok (problema : String)
  | okEmptyList
  | error (msg : String)
  | helpExit
  deriving DecidableEq, Repr

/-- The parse error for the omitted required flag. -/
def requiredErrorMsg : String :=
  "the following arguments are required: -p/--problema"

/-- The parse error when the flag's value is missing. -/
def expectedOneArgMsg : String :=
  "argument -p/--problema: expected one argument"

/-- The parse error when a token abbreviates both long options. -/
def ambiguousMsg (tok : String) : String :=
  "ambiguous option: " ++ tok ++ " could match --help, --problema"

/-- The parse error when an explicit value is handed to the help option. -/
def ignoredExplicitMsg (e : String) : String :=
  "argument -h/--help: ignored explicit argument " ++ "'" ++ e ++ "'"

/-- The parse error for tokens no declared argument consumed. -/
def unrecognizedMsgFor (extras : List String) : String :=
  "unrecognized arguments: " ++ String.intercalate " " extras

/-- How re-reading the explicit argument attached to the short help option
as further single-character options ends: all matched (help fires and
exits), a leftover no option matches (ignored-explicit error), or a final
bare -p still owed a value from the next token. -/
inductive ClusterResult where
  | exitHelp
  | ignored (tail : String)
  | awaitHelp
  deriving DecidableEq, Repr

/-- argparse re-reads the explicit argument attached to a short zero-argument
option as more short options: each h chains another help, a p takes the
remaining characters as its value (or awaits the next token when none
remain), and any other character fails as an ignored explicit argument. -/
def clusterHelp : List Char → ClusterResult
  | [] => ClusterResult.exitHelp
  | 'h' :: rest => clusterHelp rest
  | 'p' :: rest =>
    if rest.isEmpty then ClusterResult.awaitHelp else ClusterResult.exitHelp
  | c :: rest => ClusterResult.ignored (String.mk (c :: rest))

/-- The consumption state: `run` carries the stored value and the extras in
order; `await` means the previous token was the bare flag, still owed its
value; `awaitHelp` the same after an -hp cluster, with help due to fire
once the value arrives; `halted` is help having exited or a hard error. -/
inductive ConsumeState where
  | run (found : Option FlagValue) (extras : List String)
  | await (found : Option FlagValue) (extras : List String)
  | awaitHelp
  | halted (r : ParseResult)
  deriving DecidableEq, Repr

/-- One classified token of the consumption pass: help exits at once, a
long-form explicit argument to help fails, a short-form one re-clusters, a
flag =value stores it (the -- value becoming the empty list), the bare flag
awaits the next token and accepts it only when it was classified as a
positional, and every unconsumed token joins the extras. The last stored
value wins. -/
def consumeStep (st : ConsumeState) (p : String × TokClass) : ConsumeState :=
  match st with
  | ConsumeState.halted r => ConsumeState.halted r
  | ConsumeState.awaitHelp =>
    match p.2 with
    | TokClass.positional => ConsumeState.halted ParseResult.helpExit
    | _ => ConsumeState.halted (ParseResult.error expectedOneArgMsg)
  | ConsumeState.await _found extras =>
    match p.2 with
    | TokClass.positional => ConsumeState.run (some (FlagValue.str p.1)) extras
    | _ => ConsumeState.halted (ParseResult.error expectedOneArgMsg)
  | ConsumeState.run found extras =>
    match p.2 with
    | TokClass.help none _ => ConsumeState.halted ParseResult.helpExit
    | TokClass.help (some e) false =>
      ConsumeState.halted (ParseResult.error (ignoredExplicitMsg e))
    | TokClass.help (some e) true =>
      (match clusterHelp e.data with
       | ClusterResult.exitHelp => ConsumeState.halted ParseResult.helpExit
       | ClusterResult.ignored t =>
         ConsumeState.halted (ParseResult.error (ignoredExplicitMsg t))
       | ClusterResult.awaitHelp => ConsumeState.awaitHelp)
    | TokClass.problema (some e) =>
      if e.data = sepChars then ConsumeState.run (some FlagValue.emptyList) extras
      else ConsumeState.run (some (FlagValue.str e)) extras
    | TokClass.problema none => ConsumeState.await found extras
    | TokClass.ambiguous =>
      ConsumeState.halted (ParseResult.error (ambiguousMsg p.1))
    | _ => ConsumeState.run found (extras ++ [p.1])

/-- End of the consumption pass: a flag still owed its value fails, then the
missing required flag is reported, then unrecognized extras, else the
stored value is returned. -/
def finishConsume : ConsumeState → ParseResult
  | ConsumeState.halted r => r
  | ConsumeState.await _ _ => ParseResult.error expectedOneArgMsg
  | ConsumeState.awaitHelp => ParseResult.error expectedOneArgMsg
  | ConsumeState.run found extras =>
    match found with
    | none => ParseResult.error requiredErrorMsg
    | some fv =>
      if extras.isEmpty then
        match fv with
        | FlagValue.str v => ParseResult.ok v
        | FlagValue.emptyList => ParseResult.okEmptyList
      else ParseResult.error (unrecognizedMsgFor extras)

/-- The first token the pre-pass found ambiguous, if any: argparse raises
this error while classifying, before any option is consumed. -/
def firstAmbiguous (cl : List (String × TokClass)) : Option String :=
  (cl.find? (fun p => p.2 == TokClass.ambiguous)).map Prod.fst

/-- parse_args (utils.py lines 10-20): parses the given command-line tokens
against the declared required flag (and the auto-added help option) and
returns the flag's value, a parse error, or the successful help exit. -/
def parse_args (argv : List String) : ParseResult :=
  let cl := classifyAll argv
  match firstAmbiguous cl with
  | some tok => ParseResult.error (ambiguousMsg tok)
  | none => finishConsume (cl.foldl consumeStep (ConsumeState.run none []))

/-- Whether the pre-pass matches a token to the declared -p flag. -/
def TokClass.isProblemaOpt : TokClass → Bool
  | TokClass.problema _ => true
  | _ => false

/-- Whether the pre-pass matches a token to the auto-added help option. -/
def TokClass.isHelpOpt : TokClass → Bool
  | TokClass.help _ _ => true
  | _ => false

/-- A token the declared flag matches in some form. -/
def matchesProblema (tok : String) : Bool := (classify tok).isProblemaOpt

/-- A token the auto-added help option matches in some form. -/
def matchesHelp (tok : String) : Bool := (classify tok).isHelpOpt

/-- Whether a parse outcome is an error exit. -/
def ParseResult.isError : ParseResult → Bool
  | ParseResult.error _ => true
  | _ => false

/- ================= Concrete values for witnesses ================= -/

/-- The constructor's default generation config. -/
def demoConfig : GenerationConfig :=
  { temperature := 9/10, max_output_tokens := 8192, top_p := 1, top_k := 32 }

/-- The model handle the constructor builds from the defaults. -/
def demoHandle : ModelHandle :=
  { model_name := "gemini-1.5-flash", generation_config := demoConfig,
    safety_settings := [], system_instruction := none }

/-- A client as constructed with an explicit key and the defaults. -/
def demoClient : GeminiClient :=
  { model_name := "gemini-1.5-flash", default_generation_config := demoConfig,
    system_instruction := none, safety_settings := [], model := demoHandle,
    chat_session := none }

/-- The chat session start_chat opens on demoClient with no history. -/
def demoSession : ChatSession := { model := demoHandle, history := [] }

/-- demoClient after a successful start_chat. -/
def demoClientChat : GeminiClient := { demoClient with chat_session := some demoSession }

/-- A service stub whose call always raises with text "boom". -/
def failingGenerate : GenerateContentCall := fun _ _ _ _ _ => Except.error "boom"

/-- A chat-send stub whose call always raises with text "boom". -/
def failingSend : SendMessageCall := fun _ _ _ => Except.error "boom"

/-- A fixed service response with a text field and two chunks. -/
def demoResponse : Response :=
  { text := some "ola", candidates := [], chunks := [⟨"a"⟩, ⟨"b"⟩] }

/-- A service stub returning demoResponse. -/
def okGenerate : GenerateContentCall := fun _ _ _ _ _ => Except.ok demoResponse

/-- A chat-send stub returning demoResponse. -/
def okSend : SendMessageCall := fun _ _ _ => Except.ok demoResponse

/- ================= Theorems ================= -/

/-- The loop adds exactly the rectangle counts of the processed frames to the
starting counter value. -/
theorem frameLoop_total_eq (fs : List FrameInput) :
    ∀ t : Nat, (frameLoop fs t).1 = t + ((frameLoop fs t).2.1.map List.length).sum := by
  induction fs with
  | nil => intro t; simp [frameLoop]
  | cons f rest ih =>
    intro t
    by_cases hr : f.read_ok = false
    · simp [frameLoop, hr]
    · by_cases hq : f.quit = true
      · simp [frameLoop, hr, hq]
      · simp only [frameLoop, if_neg hr, if_neg hq]
        simp only [List.map_cons, List.sum_cons]
        rw [ih (t + f.rects.length)]
        ring

/-- When every frame in `good` reads fine and never quits and the next read
fails, the loop processes exactly `good`, prints the capture error, and ends
with the counter increased by the rectangle counts of `good`. -/
theorem frameLoop_read_failure (good : List FrameInput) (bad : FrameInput)
    (rest : List FrameInput)
    (hgood : ∀ f ∈ good, f.read_ok = true ∧ f.quit = false)
    (hbad : bad.read_ok = false) :
    ∀ t : Nat, frameLoop (good ++ bad :: rest) t
      = (t + (good.map (fun f => f.rects.length)).sum,
         good.map FrameInput.rects, ["Erro ao capturar frame"]) := by
  induction good with
  | nil =>
    intro t
    simp [frameLoop, hbad]
  | cons f gs ih =>
    intro t
    have hf := hgood f (by simp)
    have hgs : ∀ x ∈ gs, x.read_ok = true ∧ x.quit = false :=
      fun x hx => hgood x (List.mem_cons_of_mem _ hx)
    have h1 : ¬ (f.read_ok = false) := by simp [hf.1]
    have h2 : ¬ (f.quit = true) := by simp [hf.2]
    simp only [List.cons_append, frameLoop, if_neg h1, if_neg h2, List.append_eq]
    rw [ih hgs (t + f.rects.length)]
    simp only [List.map_cons, List.sum_cons, Prod.mk.injEq, List.cons.injEq,
      and_true, true_and]
    omega

/-- C3: in detectar_pessoas, for every finite sequence of processed frames,
the final value of total_pessoas_detectadas equals the sum over all processed
frames of the number of rectangles the detector returned for that frame; the
counter starts at 0 and performs no deduplication across frames. -/
theorem C3_total_is_sum_of_per_frame_counts (frames : List FrameInput) :
    (detectar_pessoas true frames).totalPrinted
      = some (((detectar_pessoas true frames).processed.map List.length).sum) := by
  have h := frameLoop_total_eq frames 0
  simp only [detectar_pessoas, if_neg (by decide : ¬ ((true : Bool) = false))]
  simp only [Option.some.injEq]
  rw [h]
  simp

/-- C8: if the video source fails to open, detectar_pessoas prints an error
message and returns immediately without processing any frame; if a frame read
fails mid-stream, it prints a message and exits the loop (no retry in either
case), after which the total is printed. -/
theorem C8_open_and_read_failures_are_fatal (frames good rest : List FrameInput)
    (bad : FrameInput)
    (hgood : ∀ f ∈ good, f.read_ok = true ∧ f.quit = false)
    (hbad : bad.read_ok = false) :
    detectar_pessoas false frames
      = { prints := ["Erro ao abrir a câmera/vídeo"], processed := [],
          totalPrinted := none }
    ∧ detectar_pessoas true (good ++ bad :: rest)
      = { prints := ["Erro ao capturar frame",
                     totalMessage ((good.map (fun f => f.rects.length)).sum)],
          processed := good.map FrameInput.rects,
          totalPrinted := some ((good.map (fun f => f.rects.length)).sum) } := by
  constructor
  · rfl
  · simp only [detectar_pessoas, if_neg (by decide : ¬ ((true : Bool) = false))]
    rw [frameLoop_read_failure good bad rest hgood hbad 0]
    simp

/-- Witness for C8 at a concrete run: one good frame with one rectangle, then
a failing read. -/
theorem C8_open_and_read_failures_witness :
    detectar_pessoas false []
      = { prints := ["Erro ao abrir a câmera/vídeo"], processed := [],
          totalPrinted := none }
    ∧ detectar_pessoas true
        ([⟨true, [⟨0, 0, 1, 1⟩], false⟩] ++ (⟨false, [], false⟩ : FrameInput) :: [])
      = { prints := ["Erro ao capturar frame",
                     totalMessage ((([⟨true, [⟨0, 0, 1, 1⟩], false⟩] :
                          List FrameInput).map (fun f => f.rects.length)).sum)],
          processed := ([⟨true, [⟨0, 0, 1, 1⟩], false⟩] :
                          List FrameInput).map FrameInput.rects,
          totalPrinted := some ((([⟨true, [⟨0, 0, 1, 1⟩], false⟩] :
                          List FrameInput).map (fun f => f.rects.length)).sum) } :=
  C8_open_and_read_failures_are_fatal [] [⟨true, [⟨0, 0, 1, 1⟩], false⟩] []
    ⟨false, [], false⟩ (by decide) rfl

/-- C1: constructing GeminiClient with api_key = None and with the
environment variable GOOGLE_API_KEY unset (or set to an empty value) raises a
ValueError, and this configuration error is raised before any
request-issuing operation is performed (the event trace is empty, so it holds
no request event). -/
theorem C1_missing_credential_raises_before_requests (env : Option String)
    (mn : String) (temp : Rat) (mot : Int) (tp : Rat) (tk : Int)
    (si : Option String) (ss : Option (List SafetySetting))
    (henv : env = none ∨ env = some "") :
    GeminiClient.init none env mn temp mot tp tk si ss
      = ([], Except.error (PyError.valueError missingKeyMessage))
    ∧ ((GeminiClient.init none env mn temp mot tp tk si ss).1.all
        (fun e => !e.isRequest)) = true := by
  rcases henv with h | h <;> subst h <;> exact ⟨rfl, rfl⟩

/-- Witness for C1 at a concrete input: no explicit key, unset variable,
default construction arguments. -/
theorem C1_missing_credential_witness :
    GeminiClient.init none none "gemini-1.5-flash" (9/10) 8192 1 32 none none
      = ([], Except.error (PyError.valueError missingKeyMessage))
    ∧ ((GeminiClient.init none none "gemini-1.5-flash" (9/10) 8192 1 32 none
        none).1.all (fun e => !e.isRequest)) = true :=
  C1_missing_credential_raises_before_requests none "gemini-1.5-flash" (9/10)
    8192 1 32 none none (Or.inl rfl)

/-- C9: an explicitly passed empty-string credential is accepted: the
missing-credential check runs only when api_key is None, so __init__ does not
raise and forwards the empty key to genai.configure, whatever the
environment variable holds. -/
theorem C9_explicit_empty_key_accepted (env : Option String) (mn : String)
    (temp : Rat) (mot : Int) (tp : Rat) (tk : Int) (si : Option String)
    (ss : Option (List SafetySetting)) :
    ∃ c : GeminiClient,
      GeminiClient.init (some "") env mn temp mot tp tk si ss
        = ([Event.configure "", Event.createModel c.model], Except.ok c) :=
  ⟨{ model_name := mn,
     default_generation_config :=
       { temperature := temp, max_output_tokens := mot, top_p := tp, top_k := tk },
     system_instruction := si, safety_settings := ss.getD [],
     model :=
       { model_name := mn,
         generation_config :=
           { temperature := temp, max_output_tokens := mot, top_p := tp, top_k := tk },
         safety_settings := ss.getD [], system_instruction := si },
     chat_session := none }, rfl⟩

/-- C2: for every GeminiClient whose chat_session is not set, calling
send_chat_message raises a RuntimeError (an exception, not an error string):
the check precedes the try block, so the broad handler never sees it. -/
theorem C2_send_without_session_raises (c : GeminiClient) (message : Prompt)
    (stream : Bool) (svc : SendMessageCall) (h : c.chat_session = none) :
    c.send_chat_message message stream svc
      = (c, [], Except.error (PyError.runtimeError noSessionMessage)) := by
  simp [GeminiClient.send_chat_message, h]

/-- Witness for C2 on a freshly constructed client. -/
theorem C2_send_without_session_witness :
    demoClient.send_chat_message (Prompt.str "oi") false failingSend
      = (demoClient, [], Except.error (PyError.runtimeError noSessionMessage)) :=
  C2_send_without_session_raises demoClient (Prompt.str "oi") false failingSend rfl

/-- C4: whenever the service call inside generate_response,
generate_response_instructed, or send_chat_message with an active session
raises with text e, the method does not propagate the exception: it prints
the prefixed error line and returns the string "Erro: " followed by e. -/
theorem C4_service_errors_become_strings (c : GeminiClient) (prompt : Prompt)
    (generation_config : Option GenerationConfig) (tools : List Tool)
    (stream : Bool) (svc : GenerateContentCall) (send : SendMessageCall)
    (instruction : String) (session : ChatSession) (e : String) :
    (svc c.model prompt (some (generation_config.getD c.default_generation_config))
        tools stream = Except.error e →
      c.generate_response prompt generation_config tools stream svc
        = (c, [Event.callGenerateContent c.model,
               Event.consolePrint ("Erro ao gerar resposta: " ++ e)],
           Except.ok (GenValue.str ("Erro: " ++ e))))
    ∧ (svc (instructedHandle c instruction generation_config) prompt none tools
          stream = Except.error e →
      c.generate_response_instructed prompt instruction generation_config tools
          stream svc
        = (c, [Event.createModel (instructedHandle c instruction generation_config),
               Event.callGenerateContent (instructedHandle c instruction generation_config),
               Event.consolePrint ("Erro ao gerar resposta instruída: " ++ e)],
           Except.ok (GenValue.str ("Erro: " ++ e))))
    ∧ (c.chat_session = some session → send session prompt stream = Except.error e →
      c.send_chat_message prompt stream send
        = (c, [Event.callSendMessage session,
               Event.consolePrint ("Erro ao enviar mensagem no chat: " ++ e)],
           Except.ok (GenValue.str ("Erro: " ++ e)))) := by
  refine ⟨fun h => ?_, fun h => ?_, fun hs h => ?_⟩
  · simp [GeminiClient.generate_response, h]
  · simp [GeminiClient.generate_response_instructed, h]
  · simp [GeminiClient.send_chat_message, hs, h]

/-- Witness for C4: service stubs that always raise with text "boom", on the
demo client (with a session for the chat part). -/
theorem C4_service_errors_witness :
    (demoClient.generate_response (Prompt.str "oi") none [] false failingGenerate
       = (demoClient, [Event.callGenerateContent demoClient.model,
            Event.consolePrint ("Erro ao gerar resposta: " ++ "boom")],
          Except.ok (GenValue.str ("Erro: " ++ "boom"))))
    ∧ (demoClient.generate_response_instructed (Prompt.str "oi") "pirata" none []
          false failingGenerate
       = (demoClient, [Event.createModel (instructedHandle demoClient "pirata" none),
            Event.callGenerateContent (instructedHandle demoClient "pirata" none),
            Event.consolePrint ("Erro ao gerar resposta instruída: " ++ "boom")],
          Except.ok (GenValue.str ("Erro: " ++ "boom"))))
    ∧ (demoClientChat.send_chat_message (Prompt.str "oi") false failingSend
       = (demoClientChat, [Event.callSendMessage demoSession,
            Event.consolePrint ("Erro ao enviar mensagem no chat: " ++ "boom")],
          Except.ok (GenValue.str ("Erro: " ++ "boom")))) :=
  ⟨(C4_service_errors_become_strings demoClient (Prompt.str "oi") none [] false
      failingGenerate failingSend "pirata" demoSession "boom").1 rfl,
   (C4_service_errors_become_strings demoClient (Prompt.str "oi") none [] false
      failingGenerate failingSend "pirata" demoSession "boom").2.1 rfl,
   (C4_service_errors_become_strings demoClientChat (Prompt.str "oi") none [] false
      failingGenerate failingSend "pirata" demoSession "boom").2.2 rfl rfl⟩

/-- C5: every call to generate_response_instructed builds a fresh temporary
model handle carrying the one-off instruction (the first event of the call)
and leaves every field of the instance unchanged: no cross-call persona
leakage. -/
theorem C5_instructed_call_is_frame_preserving (c : GeminiClient)
    (prompt : Prompt) (instruction : String)
    (generation_config : Option GenerationConfig) (tools : List Tool)
    (stream : Bool) (svc : GenerateContentCall) :
    ((c.generate_response_instructed prompt instruction generation_config tools
        stream svc).1.model = c.model
    ∧ (c.generate_response_instructed prompt instruction generation_config tools
        stream svc).1.system_instruction = c.system_instruction
    ∧ (c.generate_response_instructed prompt instruction generation_config tools
        stream svc).1.default_generation_config = c.default_generation_config
    ∧ (c.generate_response_instructed prompt instruction generation_config tools
        stream svc).1.safety_settings = c.safety_settings
    ∧ (c.generate_response_instructed prompt instruction generation_config tools
        stream svc).1.model_name = c.model_name
    ∧ (c.generate_response_instructed prompt instruction generation_config tools
        stream svc).1.chat_session = c.chat_session)
    ∧ (c.generate_response_instructed prompt instruction generation_config tools
        stream svc).2.1.head?
      = some (Event.createModel (instructedHandle c instruction generation_config))
    ∧ (instructedHandle c instruction generation_config).system_instruction
      = some instruction := by
  cases h : svc (instructedHandle c instruction generation_config) prompt none tools stream <;>
    simp [GeminiClient.generate_response_instructed, h, instructedHandle] at h ⊢

/-- The non-streaming normalisation block agrees with the cascade as the
specification words it. -/
theorem extractValue_eq_specCascade (r : Response) :
    extractValue r false = specCascade r := by
  rcases r with ⟨t, cands, ch⟩
  cases t with
  | some s => rfl
  | none =>
    cases cands with
    | nil => rfl
    | cons cand cs =>
      rcases cand with ⟨⟨ps⟩⟩
      cases ps with
      | nil => rfl
      | cons p pr =>
        rcases p with ⟨pt, py⟩
        cases pt <;> rfl

/-- C6: a non-raising non-streaming generate_response returns per the
cascade: the response text field when present, else the first part of the
first candidate (its text if present, the raw part otherwise), else the empty
string; with stream = true it returns the sequence of the chunks' text
fields instead. -/
theorem C6_response_normalisation (c : GeminiClient) (prompt : Prompt)
    (generation_config : Option GenerationConfig) (tools : List Tool)
    (svc : GenerateContentCall) (response : Response) :
    (svc c.model prompt (some (generation_config.getD c.default_generation_config))
        tools false = Except.ok response →
      (c.generate_response prompt generation_config tools false svc).2.2
        = Except.ok (specCascade response))
    ∧ (svc c.model prompt (some (generation_config.getD c.default_generation_config))
        tools true = Except.ok response →
      (c.generate_response prompt generation_config tools true svc).2.2
        = Except.ok (GenValue.chunkTexts (response.chunks.map Chunk.text))) := by
  constructor
  · intro h
    simp [GeminiClient.generate_response, h, extractValue_eq_specCascade]
  · intro h
    simp [GeminiClient.generate_response, h, extractValue]

/-- Witness for C6: a stub service returning a fixed response with a text
field and two chunks. -/
theorem C6_response_normalisation_witness :
    (demoClient.generate_response (Prompt.str "oi") none [] false okGenerate).2.2
      = Except.ok (specCascade demoResponse)
    ∧ (demoClient.generate_response (Prompt.str "oi") none [] true okGenerate).2.2
      = Except.ok (GenValue.chunkTexts (demoResponse.chunks.map Chunk.text)) :=
  ⟨(C6_response_normalisation demoClient (Prompt.str "oi") none [] okGenerate
      demoResponse).1 rfl,
   (C6_response_normalisation demoClient (Prompt.str "oi") none [] okGenerate
      demoResponse).2 rfl⟩

/-- generate_response never reassigns the instance. -/
theorem generate_response_fst (c : GeminiClient) (prompt : Prompt)
    (generation_config : Option GenerationConfig) (tools : List Tool)
    (stream : Bool) (svc : GenerateContentCall) :
    (c.generate_response prompt generation_config tools stream svc).1 = c := by
  cases h : svc c.model prompt
      (some (generation_config.getD c.default_generation_config)) tools stream <;>
    simp [GeminiClient.generate_response, h]

/-- generate_response_instructed never reassigns the instance. -/
theorem generate_response_instructed_fst (c : GeminiClient) (prompt : Prompt)
    (instruction : String) (generation_config : Option GenerationConfig)
    (tools : List Tool) (stream : Bool) (svc : GenerateContentCall) :
    (c.generate_response_instructed prompt instruction generation_config tools
      stream svc).1 = c := by
  cases h : svc (instructedHandle c instruction generation_config) prompt none
      tools stream <;>
    simp [GeminiClient.generate_response_instructed, h]

/-- send_chat_message never reassigns the instance. -/
theorem send_chat_message_fst (c : GeminiClient) (message : Prompt)
    (stream : Bool) (svc : SendMessageCall) :
    (c.send_chat_message message stream svc).1 = c := by
  rcases hc : c.chat_session with _ | session
  · simp [GeminiClient.send_chat_message, hc]
  · cases h : svc session message stream <;>
      simp [GeminiClient.send_chat_message, hc, h]

/-- One operation either leaves chat_session exactly as it was or is a
start_chat, which sets it to an open session. -/
theorem applyOp_chat_session (c : GeminiClient) (op : Op) :
    (applyOp c op).chat_session = c.chat_session
    ∨ ∃ h, op = Op.startChat h ∧ ((applyOp c op).chat_session).isSome = true := by
  cases op with
  | genResp p gc t s svc =>
    exact Or.inl (by rw [applyOp, generate_response_fst])
  | genInstructed p i gc t s svc =>
    exact Or.inl (by rw [applyOp, generate_response_instructed_fst])
  | startChat h =>
    exact Or.inr ⟨h, rfl, by simp [applyOp, GeminiClient.start_chat]⟩
  | sendMsg m s svc =>
    exact Or.inl (by rw [applyOp, send_chat_message_fst])

/-- An open session stays open across one operation. -/
theorem applyOp_preserves_isSome (c : GeminiClient) (op : Op)
    (h : (c.chat_session).isSome = true) :
    ((applyOp c op).chat_session).isSome = true := by
  rcases applyOp_chat_session c op with heq | ⟨hist, _, hsome⟩
  · rw [heq]; exact h
  · exact hsome

/-- An open session stays open across any sequence of operations. -/
theorem foldl_applyOp_preserves_isSome (ops : List Op) :
    ∀ c : GeminiClient, (c.chat_session).isSome = true →
      ((ops.foldl applyOp c).chat_session).isSome = true := by
  induction ops with
  | nil => intro c h; exact h
  | cons op rest ih =>
    intro c h
    exact ih (applyOp c op) (applyOp_preserves_isSome c op h)

/-- A client __init__ returns has chat_session unset. -/
theorem init_chat_session_none (api_key env : Option String) (mn : String)
    (temp : Rat) (mot : Int) (tp : Rat) (tk : Int) (si : Option String)
    (ss : Option (List SafetySetting)) (events : List Event) (c0 : GeminiClient)
    (hinit : GeminiClient.init api_key env mn temp mot tp tk si ss
      = (events, Except.ok c0)) :
    c0.chat_session = none := by
  unfold GeminiClient.init initConfigured at hinit
  rcases api_key with _ | k
  · rcases env with _ | k
    · simp at hinit
    · by_cases hk : k = "" <;> simp [hk] at hinit
      rw [← hinit.2]
  · simp at hinit
    rw [← hinit.2]

/-- C10: the chat-session state only moves from closed to open: it is unset
on construction, start_chat assigns it a (non-None) session, every other
operation leaves it unchanged, and once open it stays open across every
later sequence of operations — so after one successful start_chat every later
send_chat_message on that instance satisfies the active-session
precondition. -/
theorem C10_chat_session_monotone (api_key env : Option String) (mn : String)
    (temp : Rat) (mot : Int) (tp : Rat) (tk : Int) (si : Option String)
    (ss : Option (List SafetySetting)) (events : List Event)
    (c0 c d : GeminiClient) (history : Option (List ChatTurn)) (op : Op)
    (ops : List Op)
    (hinit : GeminiClient.init api_key env mn temp mot tp tk si ss
      = (events, Except.ok c0))
    (hopen : (d.chat_session).isSome = true) :
    c0.chat_session = none
    ∧ (c.start_chat history).1.chat_session
        = some { model := c.model, history := history.getD [] }
    ∧ ((applyOp c op).chat_session = c.chat_session
        ∨ ∃ h, op = Op.startChat h ∧ ((applyOp c op).chat_session).isSome = true)
    ∧ ((ops.foldl applyOp d).chat_session).isSome = true := by
  refine ⟨init_chat_session_none api_key env mn temp mot tp tk si ss events c0 hinit,
    rfl, applyOp_chat_session c op, foldl_applyOp_preserves_isSome ops d hopen⟩

/-- Witness for C10: a client built with an explicit key, the demo client for
the per-operation parts, an opened client and one later send. -/
theorem C10_chat_session_monotone_witness :
    demoClient.chat_session = none
    ∧ (demoClient.start_chat none).1.chat_session
        = some { model := demoClient.model, history := (none : Option (List ChatTurn)).getD [] }
    ∧ ((applyOp demoClient (Op.startChat none)).chat_session = demoClient.chat_session
        ∨ ∃ h, Op.startChat none = Op.startChat h
            ∧ ((applyOp demoClient (Op.startChat none)).chat_session).isSome = true)
    ∧ (([Op.sendMsg (Prompt.str "oi") false okSend].foldl applyOp
          demoClientChat).chat_session).isSome = true :=
  C10_chat_session_monotone (some "k") none "gemini-1.5-flash" (9/10) 8192 1 32
    none none [Event.configure "k", Event.createModel demoHandle] demoClient
    demoClient demoClientChat none (Op.startChat none)
    [Op.sendMsg (Prompt.str "oi") false okSend] rfl rfl


/-- Tokens the scan leaves passive (no flag match, no help, no ambiguity)
keep the consumption state intact apart from collecting extras. -/
theorem foldl_consumeStep_passive (cl : List (String × TokClass)) :
    ∀ f e, (∀ p ∈ cl, p.2.isProblemaOpt = false ∧ p.2.isHelpOpt = false
              ∧ p.2 ≠ TokClass.ambiguous) →
      ∃ e2, cl.foldl consumeStep (ConsumeState.run f e) = ConsumeState.run f e2 := by
  induction cl with
  | nil => intro f e _; exact ⟨e, rfl⟩
  | cons p rest ih =>
    intro f e hall
    obtain ⟨h1, h2, h3⟩ := hall p (by simp)
    have hrest := fun q hq => hall q (List.mem_cons_of_mem _ hq)
    rw [List.foldl_cons]
    rcases p with ⟨tok, cls⟩
    cases cls with
    | positional => exact ih f (e ++ [tok]) hrest
    | separator => exact ih f (e ++ [tok]) hrest
    | unknownOpt => exact ih f (e ++ [tok]) hrest
    | problema ex => simp [TokClass.isProblemaOpt] at h1
    | help ex sf => simp [TokClass.isHelpOpt] at h2
    | ambiguous => exact absurd rfl h3

/-- Every pair the pre-pass produces is a classified original token, the
separator, or a forced positional. -/
theorem classifyAll_classes (argv : List String) (p : String × TokClass)
    (hp : p ∈ classifyAll argv) :
    (p.1 ∈ argv ∧ p.2 = classify p.1)
    ∨ p.2 = TokClass.separator ∨ p.2 = TokClass.positional := by
  simp only [classifyAll, List.mem_append, List.mem_map] at hp
  rcases hp with ⟨t, ht, heq⟩ | hpost
  · left
    have htarg : t ∈ argv := (List.takeWhile_sublist _).subset ht
    rw [← heq]
    exact ⟨htarg, rfl⟩
  · rcases hq : List.dropWhile (fun t => !(t.data == sepChars)) argv with _ | ⟨s0, rest⟩ <;>
      rw [hq] at hpost
    · simp at hpost
    · simp only [List.mem_cons, List.mem_map] at hpost
      rcases hpost with rfl | ⟨t, ht, heq⟩
      · right; left; rfl
      · right; right; rw [← heq]

/-- With no token matching the declared flag or the help option, the whole
classified list is passive. -/
theorem classifyAll_passive (argv : List String)
    (habsent : ∀ t ∈ argv, matchesProblema t = false ∧ matchesHelp t = false)
    (hnamb : ∀ p ∈ classifyAll argv, ¬ (p.2 = TokClass.ambiguous)) :
    ∀ p ∈ classifyAll argv, p.2.isProblemaOpt = false ∧ p.2.isHelpOpt = false
      ∧ p.2 ≠ TokClass.ambiguous := by
  intro p hp
  rcases classifyAll_classes argv p hp with ⟨hmem, hcl⟩ | hcl | hcl
  · obtain ⟨h1, h2⟩ := habsent p.1 hmem
    exact ⟨by rw [hcl]; exact h1, by rw [hcl]; exact h2, hnamb p hp⟩
  · exact ⟨by rw [hcl]; rfl, by rw [hcl]; rfl, hnamb p hp⟩
  · exact ⟨by rw [hcl]; rfl, by rw [hcl]; rfl, hnamb p hp⟩

/-- With no token matching the declared flag or the help option, the parse
ends in an error (the required-argument error, or the ambiguity error when
an --= token is present). -/
theorem parse_args_no_flag_fails (argv : List String)
    (habsent : ∀ t ∈ argv, matchesProblema t = false ∧ matchesHelp t = false) :
    ∃ msg, parse_args argv = ParseResult.error msg := by
  rcases hamb : firstAmbiguous (classifyAll argv) with _ | tok
  · have hfind : (classifyAll argv).find? (fun p => p.2 == TokClass.ambiguous) = none := by
      rcases hf : (classifyAll argv).find? (fun p => p.2 == TokClass.ambiguous) with _ | q
      · exact hf
      · rw [firstAmbiguous, hf] at hamb
        simp at hamb
    have hnamb : ∀ p ∈ classifyAll argv, ¬ (p.2 = TokClass.ambiguous) := by
      intro p hp hpe
      have hnp := List.find?_eq_none.mp hfind p hp
      simp [hpe] at hnp
    obtain ⟨e2, he2⟩ := foldl_consumeStep_passive (classifyAll argv)
      none [] (classifyAll_passive argv habsent hnamb)
    refine ⟨requiredErrorMsg, ?_⟩
    simp only [parse_args]
    rw [hamb, he2]
    rfl
  · refine ⟨ambiguousMsg tok, ?_⟩
    simp only [parse_args]
    rw [hamb]

/-- A token whose characters are exactly -- is the ambiguous prefix of both
long option strings to the classifier (the pre-pass itself never consults
it on the separator). -/
theorem classify_sep (v : String) (h : v.data = sepChars) :
    classify v = TokClass.ambiguous := by
  rcases v with ⟨l⟩
  have hl : l = sepChars := h
  subst hl
  decide

/-- C7 counterexample: the invocation ["-h"] omits the declared flag in
every form, yet the parse does not fail: argparse's automatically added
help option prints the usage text and exits with success status. -/
theorem C7_help_counterexample :
    matchesProblema "-h" = false
    ∧ parse_args ["-h"] = ParseResult.helpExit
    ∧ (parse_args ["-h"]).isError = false := by decide

/-- C7 (amended): parse_args itself declares exactly one flag, -p (long
form --problema), and it is required, but argparse adds -h (long form
--help): an invocation matching neither the flag nor help fails; invoking
help prints usage and exits successfully without returning a value; and an
invocation supplying only the flag with a value — as separate tokens with a
positional-classified value, or in =value form, short or long, for any
value other than the bare -- separator — succeeds and returns that value
unchanged, with no further validation of the value. -/
theorem C7_flag_and_help_behavior (argv : List String) (v w : String)
    (habsent : ∀ t ∈ argv, matchesProblema t = false ∧ matchesHelp t = false)
    (hval : classify v = TokClass.positional)
    (hw : ¬ (w.data = sepChars)) :
    (∃ msg, parse_args argv = ParseResult.error msg)
    ∧ parse_args [] = ParseResult.error requiredErrorMsg
    ∧ parse_args ["-h"] = ParseResult.helpExit
    ∧ parse_args ["--help"] = ParseResult.helpExit
    ∧ parse_args ["-p", v] = ParseResult.ok v
    ∧ parse_args [String.mk (shortChars ++ '=' :: w.data)] = ParseResult.ok w
    ∧ parse_args [String.mk (longFlagChars ++ '=' :: w.data)] = ParseResult.ok w := by
  have hvsep : ¬ (v.data = sepChars) := fun h => by
    rw [classify_sep v h] at hval
    exact absurd hval (by decide)
  refine ⟨parse_args_no_flag_fails argv habsent, by decide, by decide, by decide,
    ?_, ?_, ?_⟩
  · have hpred0 : (fun t : String => !(t.data == sepChars)) "-p" = true := by decide
    have hpredv : (fun t : String => !(t.data == sepChars)) v = true := by
      simp [hvsep]
    have hcp : classify "-p" = TokClass.problema none := by decide
    have hclass : classifyAll ["-p", v]
        = [("-p", TokClass.problema none), (v, TokClass.positional)] := by
      simp [classifyAll, List.takeWhile_cons, List.dropWhile_cons, hpred0, hpredv,
        hcp, hval]
    unfold parse_args
    rw [hclass]
    rfl
  · rcases w with ⟨wl⟩
    show finishConsume (List.foldl consumeStep
        (consumeStep (ConsumeState.run none [])
          (String.mk (shortChars ++ '=' :: wl), TokClass.problema (some (String.mk wl)))) [])
      = ParseResult.ok (String.mk wl)
    simp only [consumeStep]
    rw [if_neg hw]
    rfl
  · rcases w with ⟨wl⟩
    show finishConsume (List.foldl consumeStep
        (consumeStep (ConsumeState.run none [])
          (String.mk (longFlagChars ++ '=' :: wl), TokClass.problema (some (String.mk wl)))) [])
      = ParseResult.ok (String.mk wl)
    simp only [consumeStep]
    rw [if_neg hw]
    rfl

/-- Witness for C7 at concrete invocations: a flagless invocation, the
empty one, both help forms, the short form with a plain value, and both
=value forms carrying an option-like value kept unchanged. -/
theorem C7_flag_and_help_witness :
    (∃ msg, parse_args ["x"] = ParseResult.error msg)
    ∧ parse_args [] = ParseResult.error requiredErrorMsg
    ∧ parse_args ["-h"] = ParseResult.helpExit
    ∧ parse_args ["--help"] = ParseResult.helpExit
    ∧ parse_args ["-p", "valor"] = ParseResult.ok "valor"
    ∧ parse_args [String.mk (shortChars ++ '=' :: ("-x" : String).data)]
        = ParseResult.ok "-x"
    ∧ parse_args [String.mk (longFlagChars ++ '=' :: ("-x" : String).data)]
        = ParseResult.ok "-x" :=
  C7_flag_and_help_behavior ["x"] "valor" "-x" (by decide) (by decide) (by decide)
